import Mathlib

/-!
Verification of the USCF player-search worker (source file `src/index.ts`).

The worker scrapes a member-lookup HTML page with cheerio, extracts seven
string fields (falling back to the sentinel `"--"`), derives a membership
status from the expiration date, and evaluates eligibility with five
priority-ordered rules.

Shallow embedding conventions:
* cheerio query results are abstracted into a `Page` structure whose fields
  are exactly the strings the source reads out of the document (the results
  of the `text()` calls, and the list of table rows with their cells); every
  field is universally quantified, so the theorems cover every page cheerio
  can produce, including the empty/garbage cases where every `text()` call
  yields the empty string.
* JavaScript string operations (`split`, `trim`, `includes`, truthiness,
  `|| fallback`, out-of-bounds indexing) are modelled by the executable
  functions `jsSplit`, `jsTrim`, `jsIncludes`, `jsOr` and `List.get?`
  below, written by structural recursion so that concrete instances reduce
  inside the kernel.
* the result of `new Date(s).getTime()` is an abstract parameter
  `parseDate : String → Option Int`, with `none` standing for an Invalid
  Date (`NaN`); `NaN` propagation through date comparison and subtraction,
  and the `number | null` value domain of the `expiresIn` field, are made
  explicit by the `ExpiresIn` type.
* the async fetch boundary is a `FetchOutcome`: either the retrieval
  failure path (a rejected promise or a non-ok response, both of which
  reach the catch block of the handler) or a successfully fetched page
  together with the evaluation instant.
-/

/-! JavaScript string primitives, by structural recursion. -/

/-- Whether `pat` is a prefix of `l` (character lists). -/
def startsWithList : List Char → List Char → Bool
  | _, [] => true
  | [], _ :: _ => false
  | c :: cs, p :: ps => c == p && startsWithList cs ps

/-- Whether `sub` occurs as a contiguous sublist of `l` (always true for
the empty pattern). -/
def containsSub : List Char → List Char → Bool
  | l, sub =>
    if startsWithList l sub then true
    else
      match l with
      | [] => false
      | _ :: cs => containsSub cs sub

/-- JavaScript `s.includes(sub)`. -/
def jsIncludes (s sub : String) : Bool :=
  containsSub s.data sub.data

/-- JavaScript `s.trim()`: remove leading and trailing whitespace. -/
def jsTrim (s : String) : String :=
  ⟨((s.data.dropWhile Char.isWhitespace).reverse.dropWhile Char.isWhitespace).reverse⟩

/-- Splitting worker for `jsSplit`: `fuel` dominates the length of the
remaining input, `acc` holds the (reversed) characters of the segment
being built. -/
def jsSplitAux (sep : List Char) : Nat → List Char → List Char → List (List Char)
  | _, acc, [] => [acc.reverse]
  | 0, acc, rest => [acc.reverse ++ rest]
  | fuel + 1, acc, c :: cs =>
    if startsWithList (c :: cs) sep then
      acc.reverse :: jsSplitAux sep fuel [] ((c :: cs).drop sep.length)
    else
      jsSplitAux sep fuel (c :: acc) cs

/-- JavaScript `s.split(sep)` with no limit argument: split on every
(leftmost, non-overlapping) occurrence of `sep`, keeping empty segments;
`[s]` when `sep` does not occur; one single-character string per character
when `sep` is empty. -/
def jsSplit (s sep : String) : List String :=
  if sep.data.isEmpty then s.data.map (fun c => String.mk [c])
  else (jsSplitAux sep.data (s.data.length + 1) [] s.data).map String.mk

/-- JavaScript `x || dflt` where `x` is a string or `undefined` (`none`):
`undefined` and the empty string are falsy and fall back to the default. -/
def jsOr (x : Option String) (dflt : String) : String :=
  match x with
  | none => dflt
  | some s => if s = "" then dflt else s

/-! Data model of the worker. -/

/-- One table cell as the extractor reads it: its text and the text of its
bold descendants. -/
structure Cell where
  text : String
  boldText : String
deriving DecidableEq, Repr

/-- The strings the cheerio queries of the extractor pull out of a parsed
page. `cheerio.load` is total and each `text()` call yields a plain string
(empty when the selector matches nothing), so quantifying over all `Page`
values covers extraction on every input string. Fields, in the order the
source reads them: the error-banner text (selector
`font[color="A00000"] b`), the header text (selector `font[size="+1"] b`),
the rows (each `tr` with its `td` cells in document order), the bold text
of the cell following the cell containing `"State"`, and the bold text of
the cell following the cell containing `"Expiration Dt."`. -/
structure Page where
  errorBannerText : String
  headerText : String
  rows : List (List Cell)
  stateBoldText : String
  expirationBoldText : String
deriving DecidableEq, Repr

/-- Record type `USChessInfo` from the source: the seven extracted
fields. -/
structure USChessInfo where
  playerName : String
  playerId : String
  playerState : String
  regularRating : String
  quickRating : String
  blitzRating : String
  expirationDt : String
deriving DecidableEq, Repr

/-- Value domain of the `expiresIn` status field in the source: a finite
number of milliseconds, the floating-point `NaN` (arithmetic on an Invalid
Date), or `null`. -/
inductive ExpiresIn where
  | millis (n : Int)
  | nan
  | null
deriving DecidableEq, Repr

/-- Record type `PlayerStatus` from the source (`expiresIn` is typed
`number | null` there; the number may be `NaN`). -/
structure PlayerStatus where
  expired : Bool
  expiresIn : ExpiresIn
deriving DecidableEq, Repr

/-- Record type `PlayerEligibility` from the source. -/
structure PlayerEligibility where
  eligible : Bool
  reason : String
deriving DecidableEq, Repr

/-- The JSON body built by the `fetch` handler: the requested id (or
`null`), the eligibility verdict and the extracted data. -/
structure MemberResult where
  id : Option String
  eligibility : PlayerEligibility
  data : USChessInfo
deriving DecidableEq, Repr

/-- Constant `EmptyUSChessInfo` from the source: all seven fields are the
sentinel `"--"`. -/
def EmptyUSChessInfo : USChessInfo :=
  { playerName := "--"
    playerId := "--"
    playerState := "--"
    regularRating := "--"
    quickRating := "--"
    blitzRating := "--"
    expirationDt := "--" }

/-! The extractor. -/

/-- Body of the ratings-scan loop of `extractChessInfo` (the `each` over
all `tr` elements): a row with at least two cells whose first cell has
trimmed text equal to one of the three rating labels stores the second
cell bold text, trimmed, split on the space character, first element —
overwriting any earlier entry for that label. -/
def ratingStep (m : String → Option String) (row : List Cell) : String → Option String :=
  match row with
  | c0 :: c1 :: _ =>
    let ratingType := jsTrim c0.text
    if ["Regular Rating", "Quick Rating", "Blitz Rating"].contains ratingType then
      let ratingValue := (jsSplit (jsTrim c1.boldText) " ").headD ""
      fun k => if k = ratingType then some ratingValue else m k
    else m
  | _ => m

/-- The `ratings` object after the full row scan. -/
def buildRatings (rows : List (List Cell)) : String → Option String :=
  rows.foldl ratingStep (fun _ => none)

/-- Function `extractChessInfo` from the source, over the `Page`
abstraction of the cheerio document. -/
def extractChessInfo (page : Page) : USChessInfo :=
  let errorMessage := jsTrim page.errorBannerText
  let isInvalid := jsIncludes errorMessage "Error" || jsIncludes errorMessage "Could not retrieve data"
  if isInvalid then
    { playerName := "--"
      playerId := "--"
      playerState := "--"
      regularRating := "--"
      quickRating := "--"
      blitzRating := "--"
      expirationDt := "--" }
  else
    let idAndName := jsSplit page.headerText ": "
    let id := idAndName.get? 0
    let fullName := idAndName.get? 1
    let ratings := buildRatings page.rows
    let stateFields := jsSplit (jsTrim page.stateBoldText) "\n"
    let state := stateFields.get? 1
    let expirationDate := jsTrim page.expirationBoldText
    { playerName := jsOr fullName "--"
      playerId := jsOr id "--"
      playerState := jsOr state "--"
      regularRating := jsOr (ratings "Regular Rating") "--"
      quickRating := jsOr (ratings "Quick Rating") "--"
      blitzRating := jsOr (ratings "Blitz Rating") "--"
      expirationDt := jsOr (some expirationDate) "--" }

/-! Eligibility, status, and the fetch boundary. -/

/-- Function `determineEligibility` from the source: five rules, first
match wins. -/
def determineEligibility (requestedId : String) (playerInfo : USChessInfo)
    (playerStatus : PlayerStatus) : PlayerEligibility :=
  if playerInfo.playerId = "--" then
    { eligible := false, reason := "player_not_found" }
  else if playerStatus.expired then
    { eligible := false, reason := "player_expired" }
  else if requestedId ≠ playerInfo.playerId then
    { eligible := false, reason := "player_invalid" }
  else if playerInfo.playerName = "--" ∨ playerInfo.regularRating = "--" ∨
      playerInfo.expirationDt = "--" then
    { eligible := false, reason := "player_insufficient_info" }
  else
    { eligible := true, reason := "player_valid" }

/-- The `playerStatus` object built inside `getMemberInformation`. In the
source, `expired` is a ternary on the truthiness of the extracted
expiration string (non-emptiness), comparing the parsed date with the
current date (an Invalid Date compares false), and `expiresIn` is a
ternary on the same condition, subtracting the current epoch time from the
parsed epoch time (an Invalid Date makes this `NaN`) and `null` only for
an empty string. `parseDate` abstracts the runtime date parser; `none`
stands for an Invalid Date. -/
def computeStatus (parseDate : String → Option Int) (now : Int)
    (expirationDt : String) : PlayerStatus :=
  { expired :=
      if expirationDt ≠ "" then
        match parseDate expirationDt with
        | some t => decide (t < now)
        | none => false
      else false
    expiresIn :=
      if expirationDt ≠ "" then
        match parseDate expirationDt with
        | some t => ExpiresIn.millis (t - now)
        | none => ExpiresIn.nan
      else ExpiresIn.null }

/-- Outcome of the awaited network fetch inside `getMemberInformation`:
either the retrieval failure path (a rejected promise or a non-ok
response) or a successfully fetched page, together with the runtime date
parser and the evaluation instant. -/
inductive FetchOutcome where
  | failure
  | success (page : Page) (parseDate : String → Option Int) (now : Int)

/-- Function `getMemberInformation` from the source: throws
(`Except.error`) on retrieval failure; otherwise extracts the record,
computes the status and the eligibility, and returns the result body. -/
def getMemberInformation (id : String) (outcome : FetchOutcome) :
    Except String MemberResult :=
  match outcome with
  | .failure => .error ("Failed to fetch member information for ID " ++ id)
  | .success page parseDate now =>
    let chessInfo := extractChessInfo page
    let playerStatus := computeStatus parseDate now chessInfo.expirationDt
    let eligibility := determineEligibility id chessInfo playerStatus
    .ok { id := some id, eligibility := eligibility, data := chessInfo }

/-- The `fetch` handler from the source, restricted to the JSON body it
serializes (the HTTP status is always 200). `memberId = none` models a
missing query parameter; the guard is the falsiness of the id or the
emptiness of its trimmed form; any failure thrown by
`getMemberInformation` is caught and mapped to the error result. -/
def fetchHandler (memberId : Option String) (outcome : FetchOutcome) : MemberResult :=
  match memberId with
  | none =>
    { id := none
      eligibility := { eligible := false, reason := "player_missing_id" }
      data := EmptyUSChessInfo }
  | some id =>
    if id = "" ∨ (jsTrim id).length = 0 then
      { id := none
        eligibility := { eligible := false, reason := "player_missing_id" }
        data := EmptyUSChessInfo }
    else
      match getMemberInformation id outcome with
      | .ok result => result
      | .error _ =>
        { id := none
          eligibility := { eligible := false, reason := "error" }
          data := EmptyUSChessInfo }

/-! Spec-modelled comparison functions (for refinement claims only). -/

/-- Joining of segments with a separator (used by `specSplitOnFirst`). -/
def joinWith (sep : String) : List String → String
  | [] => ""
  | [x] => x
  | x :: y :: xs => x ++ sep ++ joinWith sep (y :: xs)

/-- Modelled from the spec, for comparison with the source in claim C2:
the spec says the header text is split on the FIRST occurrence of the
colon-space separator, the player name being ALL the text after it
(including any further occurrences inside the name). -/
def specSplitOnFirst (s : String) : String × Option String :=
  match jsSplit s ": " with
  | [] => ("", none)
  | [x] => (x, none)
  | x :: rest => (x, some (joinWith ": " rest))

/-- Splitting a character list at every whitespace character (used by
`specFirstWhitespaceToken`). -/
def wsSplit : List Char → List (List Char)
  | [] => [[]]
  | c :: cs =>
    match wsSplit cs with
    | [] => [[]]
    | t :: ts => if c.isWhitespace then [] :: t :: ts else (c :: t) :: ts

/-- Modelled from the spec, for comparison with the source in claim C8:
the spec says the rating cell text is split on WHITESPACE and only the
first token is kept. -/
def specFirstWhitespaceToken (s : String) : String :=
  ⟨(wsSplit s.data).headD []⟩

/-! Concrete pages used by witnesses and counterexamples. -/

/-- A page on which every cheerio query comes back empty (for example the
empty input string, or non-HTML garbage). -/
def emptyPage : Page :=
  { errorBannerText := ""
    headerText := ""
    rows := []
    stateBoldText := ""
    expirationBoldText := "" }

/-- A page whose error banner fires while other content is present. -/
def errPage : Page :=
  { emptyPage with
    errorBannerText := " Error 404 "
    headerText := "12345678: Jane Doe"
    rows := [[⟨"Regular Rating", ""⟩, ⟨"", "1500 (12)"⟩]] }

/-- A page whose header contains a second colon-space inside the name. -/
def hdrPage : Page :=
  { emptyPage with headerText := "12345678: John: Smith" }

/-- A page with an ordinary single-colon header. -/
def hdr2Page : Page :=
  { emptyPage with headerText := "12345678: Jane Doe" }

/-- A page whose rating cell contains a tab (whitespace that is not the
space character) between the rating and the annotation text. -/
def tabPage : Page :=
  { emptyPage with rows := [[⟨"Regular Rating", ""⟩, ⟨"", "1500\t(12)"⟩]] }

/-! Helper lemmas shared by several claims. -/

/-- Fallback to the sentinel never yields the empty string. -/
theorem jsOr_dashes_not_empty (x : Option String) : (jsOr x "--" == "") = false := by
  cases x with
  | none => decide
  | some s =>
    by_cases h : s = ""
    · simp [jsOr, h]
    · simp [jsOr, h]

/-- Unfolding of `extractChessInfo` on the error-banner branch. -/
theorem extractChessInfo_invalid (page : Page)
    (h : (jsIncludes (jsTrim page.errorBannerText) "Error" ||
          jsIncludes (jsTrim page.errorBannerText) "Could not retrieve data") = true) :
    extractChessInfo page = EmptyUSChessInfo := by
  simp [extractChessInfo, h, EmptyUSChessInfo]

/-- Unfolding of `extractChessInfo` on the normal branch. -/
theorem extractChessInfo_valid (page : Page)
    (h : (jsIncludes (jsTrim page.errorBannerText) "Error" ||
          jsIncludes (jsTrim page.errorBannerText) "Could not retrieve data") = false) :
    extractChessInfo page =
      { playerName := jsOr ((jsSplit page.headerText ": ").get? 1) "--"
        playerId := jsOr ((jsSplit page.headerText ": ").get? 0) "--"
        playerState := jsOr ((jsSplit (jsTrim page.stateBoldText) "\n").get? 1) "--"
        regularRating := jsOr (buildRatings page.rows "Regular Rating") "--"
        quickRating := jsOr (buildRatings page.rows "Quick Rating") "--"
        blitzRating := jsOr (buildRatings page.rows "Blitz Rating") "--"
        expirationDt := jsOr (some (jsTrim page.expirationBoldText)) "--" } := by
  simp [extractChessInfo, h]

/-! Claim theorems. -/

/-- C1 (code-bug exhibit): at the failing input where the extracted
expiration date is the absence sentinel `"--"`, for any runtime whose date
parser rejects the sentinel (as JavaScript does, producing an Invalid
Date), the `expiresIn` status field computed by `getMemberInformation` is
`NaN` — not `null` as the claim states. The sentinel is a non-empty, hence
truthy, string, so the null branch of the ternary is not taken, and the
Invalid-Date arithmetic propagates `NaN`; the null branch is unreachable
because extraction never yields an empty expiration field. -/
theorem c1_expiresIn_nan_on_sentinel (parseDate : String → Option Int) (now : Int)
    (h : parseDate "--" = none) :
    (computeStatus parseDate now "--").expiresIn = ExpiresIn.nan ∧
      (ExpiresIn.nan == ExpiresIn.null) = false := by
  refine ⟨?_, by decide⟩
  simp [computeStatus, h]

/-- Witness for C1 at a concrete runtime (a date parser rejecting every
string, evaluation instant 0). -/
theorem c1_expiresIn_nan_on_sentinel_witness :
    ((fun _ : String => (none : Option Int)) "--" = none) ∧
      ((computeStatus (fun _ => none) 0 "--").expiresIn = ExpiresIn.nan ∧
        (ExpiresIn.nan == ExpiresIn.null) = false) :=
  ⟨rfl, c1_expiresIn_nan_on_sentinel (fun _ => none) 0 rfl⟩

/-- C2 (counterexample): on a header reading `"12345678: John: Smith"`,
the source splits on every colon-space occurrence and takes segment 1,
yielding the player name `"John"`, whereas the claimed
split-on-first-occurrence semantics (modelled by `specSplitOnFirst`)
yields `"John: Smith"`. -/
theorem c2_counterexample :
    (extractChessInfo hdrPage).playerName = "John" ∧
      (specSplitOnFirst hdrPage.headerText).2 = some "John: Smith" ∧
      (("John" : String) == "John: Smith") = false := by
  exact ⟨by decide, by decide, by decide⟩

/-- C2 (amended): on a non-error page, the header text is split on every
colon-space occurrence; the player id is segment 0 and the player name is
segment 1 only (the text between the first and second occurrences, not
the whole remainder); a missing or empty segment independently falls back
to the sentinel (the `jsOr` fallback). -/
theorem c2_header_split_amended (page : Page)
    (h : (jsIncludes (jsTrim page.errorBannerText) "Error" ||
          jsIncludes (jsTrim page.errorBannerText) "Could not retrieve data") = false) :
    (extractChessInfo page).playerId = jsOr ((jsSplit page.headerText ": ").get? 0) "--" ∧
      (extractChessInfo page).playerName = jsOr ((jsSplit page.headerText ": ").get? 1) "--" := by
  rw [extractChessInfo_valid page h]
  exact ⟨rfl, rfl⟩

/-- Witness for C2 (amended) on an ordinary single-colon header. -/
theorem c2_header_split_amended_witness :
    (extractChessInfo hdr2Page).playerId = "12345678" ∧
      (extractChessInfo hdr2Page).playerName = "Jane Doe" := by
  have h := c2_header_split_amended hdr2Page (by decide)
  exact ⟨h.1.trans (by decide), h.2.trans (by decide)⟩

/-- C3: when the extracted player id is the sentinel, the membership is
expired, and the requested id differs from the extracted id all at once,
rule 1 wins over rules 2 and 3: the result is not eligible with reason
player_not_found. -/
theorem c3_not_found_priority (requestedId : String) (playerInfo : USChessInfo)
    (playerStatus : PlayerStatus)
    (h1 : playerInfo.playerId = "--") (_h2 : playerStatus.expired = true)
    (_h3 : requestedId ≠ playerInfo.playerId) :
    determineEligibility requestedId playerInfo playerStatus =
      { eligible := false, reason := "player_not_found" } := by
  simp [determineEligibility, h1]

/-- Witness for C3: sentinel id, expired status, mismatching requested
id. -/
theorem c3_not_found_priority_witness :
    EmptyUSChessInfo.playerId = "--" ∧
      (PlayerStatus.mk true ExpiresIn.null).expired = true ∧
      ("12345678" : String) ≠ EmptyUSChessInfo.playerId ∧
      determineEligibility "12345678" EmptyUSChessInfo ⟨true, ExpiresIn.null⟩ =
        { eligible := false, reason := "player_not_found" } :=
  ⟨by decide, rfl, by decide,
    c3_not_found_priority "12345678" EmptyUSChessInfo ⟨true, ExpiresIn.null⟩
      (by decide) rfl (by decide)⟩

/-- C4: extraction is total over every page the parser can produce, and
none of the seven extracted fields is the empty string — each is either a
non-empty scraped value or exactly the sentinel, and the `String` type of
the fields excludes null and undefined. -/
theorem c4_extract_fields_nonempty (page : Page) :
    ((extractChessInfo page).playerName == "") = false ∧
      ((extractChessInfo page).playerId == "") = false ∧
      ((extractChessInfo page).playerState == "") = false ∧
      ((extractChessInfo page).regularRating == "") = false ∧
      ((extractChessInfo page).quickRating == "") = false ∧
      ((extractChessInfo page).blitzRating == "") = false ∧
      ((extractChessInfo page).expirationDt == "") = false := by
  by_cases h : (jsIncludes (jsTrim page.errorBannerText) "Error" ||
      jsIncludes (jsTrim page.errorBannerText) "Could not retrieve data") = true
  · rw [extractChessInfo_invalid page h]
    exact ⟨by decide, by decide, by decide, by decide, by decide, by decide, by decide⟩
  · rw [extractChessInfo_valid page (by simpa using h)]
    exact ⟨jsOr_dashes_not_empty ((jsSplit page.headerText ": ").get? 1),
      jsOr_dashes_not_empty ((jsSplit page.headerText ": ").get? 0),
      jsOr_dashes_not_empty ((jsSplit (jsTrim page.stateBoldText) "\n").get? 1),
      jsOr_dashes_not_empty (buildRatings page.rows "Regular Rating"),
      jsOr_dashes_not_empty (buildRatings page.rows "Quick Rating"),
      jsOr_dashes_not_empty (buildRatings page.rows "Blitz Rating"),
      jsOr_dashes_not_empty (some (jsTrim page.expirationBoldText))⟩

/-- Witness-style instantiation of C4 on the all-empty page (the page of
the empty input string). -/
theorem c4_extract_fields_nonempty_witness :
    ((extractChessInfo emptyPage).playerName == "") = false ∧
      ((extractChessInfo emptyPage).playerId == "") = false ∧
      ((extractChessInfo emptyPage).playerState == "") = false ∧
      ((extractChessInfo emptyPage).regularRating == "") = false ∧
      ((extractChessInfo emptyPage).quickRating == "") = false ∧
      ((extractChessInfo emptyPage).blitzRating == "") = false ∧
      ((extractChessInfo emptyPage).expirationDt == "") = false :=
  c4_extract_fields_nonempty emptyPage

/-- C5: whenever the trimmed error-banner text contains the substring
Error or the substring Could not retrieve data, extraction short-circuits
to the all-sentinel record, regardless of every other field of the
page. -/
theorem c5_error_banner_short_circuit (page : Page)
    (h : jsIncludes (jsTrim page.errorBannerText) "Error" = true ∨
         jsIncludes (jsTrim page.errorBannerText) "Could not retrieve data" = true) :
    extractChessInfo page = EmptyUSChessInfo := by
  refine extractChessInfo_invalid page ?_
  rcases h with h | h <;> simp [h]

/-- Witness for C5 on a page whose banner fires while a header and a
rating row are present. -/
theorem c5_error_banner_short_circuit_witness :
    jsIncludes (jsTrim errPage.errorBannerText) "Error" = true ∧
      extractChessInfo errPage = EmptyUSChessInfo :=
  ⟨by decide, c5_error_banner_short_circuit errPage (Or.inl (by decide))⟩

/-- C6: when the requested id passes the blank-guard but retrieval fails
(`getMemberInformation` throws), the handler catches the failure and
returns the error result — null id, not eligible with reason error, and
the all-sentinel data — never propagating the failure (the handler is a
total function). -/
theorem c6_retrieval_failure_absorbed (id : String)
    (h : ¬(id = "" ∨ (jsTrim id).length = 0)) :
    fetchHandler (some id) FetchOutcome.failure =
      { id := none
        eligibility := { eligible := false, reason := "error" }
        data := EmptyUSChessInfo } := by
  simp [fetchHandler, getMemberInformation, h]

/-- Witness for C6 at a concrete non-blank id. -/
theorem c6_retrieval_failure_absorbed_witness :
    ¬(("12345678" : String) = "" ∨ (jsTrim "12345678").length = 0) ∧
      fetchHandler (some "12345678") FetchOutcome.failure =
        { id := none
          eligibility := { eligible := false, reason := "error" }
          data := EmptyUSChessInfo } :=
  ⟨by decide, c6_retrieval_failure_absorbed "12345678" (by decide)⟩

/-- C7: for a missing, empty, or whitespace-only requested id, the
handler returns the player_missing_id result with null id and all-sentinel
data, for EVERY fetch outcome — the result does not depend on the page, so
extraction is never consulted. -/
theorem c7_missing_id_short_circuit (memberId : Option String) (outcome : FetchOutcome)
    (h : memberId = none ∨ ∃ s, memberId = some s ∧ (s = "" ∨ (jsTrim s).length = 0)) :
    fetchHandler memberId outcome =
      { id := none
        eligibility := { eligible := false, reason := "player_missing_id" }
        data := EmptyUSChessInfo } := by
  rcases h with h | ⟨s, hs, hcond⟩
  · subst h; rfl
  · subst hs; simp [fetchHandler, hcond]

/-- Witness for C7 at a whitespace-only id and a successful fetch outcome
(showing the extraction result is ignored). -/
theorem c7_missing_id_short_circuit_witness :
    ((some "   " : Option String) = none ∨
      ∃ s, (some "   " : Option String) = some s ∧ (s = "" ∨ (jsTrim s).length = 0)) ∧
      fetchHandler (some "   ") (FetchOutcome.success errPage (fun _ => none) 0) =
        { id := none
          eligibility := { eligible := false, reason := "player_missing_id" }
          data := EmptyUSChessInfo } :=
  ⟨Or.inr ⟨"   ", rfl, Or.inr (by decide)⟩,
    c7_missing_id_short_circuit (some "   ") (FetchOutcome.success errPage (fun _ => none) 0)
      (Or.inr ⟨"   ", rfl, Or.inr (by decide)⟩)⟩

/-- C8 (counterexample): on a rating cell whose bolded text is
`"1500\t(12)"` (a tab, whitespace that is not the space character, before
the annotation), the source stores the whole text `"1500\t(12)"`, whereas
the claimed split-on-whitespace semantics (modelled by
`specFirstWhitespaceToken`) yields `"1500"`. -/
theorem c8_counterexample :
    (extractChessInfo tabPage).regularRating = "1500\t(12)" ∧
      specFirstWhitespaceToken "1500\t(12)" = "1500" ∧
      (("1500\t(12)" : String) == "1500") = false := by
  exact ⟨by decide, by decide, by decide⟩

/-- C8 (amended): for every rating row matched by label (the row being
the last such match for its label), the stored rating value is the
trimmed bolded text of the second cell split on the SPACE CHARACTER with
only the first token kept — in particular `"1500 (12)"` yields exactly
`"1500"` (see the witness). -/
theorem c8_rating_space_token_amended (rs : List (List Cell)) (row : List Cell)
    (c0 c1 : Cell) (rest : List Cell)
    (hrow : row = c0 :: c1 :: rest)
    (hlabel : ["Regular Rating", "Quick Rating", "Blitz Rating"].contains (jsTrim c0.text) = true) :
    buildRatings (rs ++ [row]) (jsTrim c0.text) =
      some ((jsSplit (jsTrim c1.boldText) " ").headD "") := by
  subst hrow
  have hl : jsTrim c0.text = "Regular Rating" ∨ jsTrim c0.text = "Quick Rating" ∨
      jsTrim c0.text = "Blitz Rating" := by simpa using hlabel
  unfold buildRatings
  rw [List.foldl_append]
  simp [ratingStep, hl]

/-- Witness for C8 (amended): the spec example cell text
`"1500 (12)"` yields exactly `"1500"`. -/
theorem c8_rating_space_token_amended_witness :
    buildRatings [[⟨"Regular Rating", ""⟩, ⟨"", "1500 (12)"⟩]] "Regular Rating" =
      some "1500" := by
  have h := c8_rating_space_token_amended [] [⟨"Regular Rating", ""⟩, ⟨"", "1500 (12)"⟩]
    ⟨"Regular Rating", ""⟩ ⟨"", "1500 (12)"⟩ [] rfl (by decide)
  exact h

/-- C9 (counterexample): a record whose requested id EQUALS the extracted
player id but both are the sentinel, with the membership not expired and
playerName, regularRating and expirationDt all non-sentinel, is rejected
by rule 1 with reason player_not_found — not accepted as player_valid as
the claim, quantified over every such record, states. -/
theorem c9_counterexample :
    determineEligibility "--"
        { playerName := "Jane Doe"
          playerId := "--"
          playerState := "--"
          regularRating := "1500"
          quickRating := "--"
          blitzRating := "--"
          expirationDt := "2099-01-01" }
        { expired := false, expiresIn := ExpiresIn.null } =
      { eligible := false, reason := "player_not_found" } ∧
      (("player_not_found" : String) == "player_valid") = false := by
  exact ⟨by decide, by decide⟩

/-- C9 (amended): with the extracted player id additionally different
from the sentinel, the non-critical fields playerState, quickRating and
blitzRating never gate eligibility: whenever the requested id equals the
extracted id, the membership is not expired, and playerName,
regularRating and expirationDt are all non-sentinel, the result is
eligible with reason player_valid — even if the three non-critical fields
are all the sentinel (they do not occur among the hypotheses). -/
theorem c9_noncritical_never_gate_amended (requestedId : String)
    (playerInfo : USChessInfo) (playerStatus : PlayerStatus)
    (hid : playerInfo.playerId ≠ "--")
    (hmatch : requestedId = playerInfo.playerId)
    (hexp : playerStatus.expired = false)
    (hname : playerInfo.playerName ≠ "--")
    (hreg : playerInfo.regularRating ≠ "--")
    (hdt : playerInfo.expirationDt ≠ "--") :
    determineEligibility requestedId playerInfo playerStatus =
      { eligible := true, reason := "player_valid" } := by
  simp [determineEligibility, hid, hmatch, hexp, hname, hreg, hdt]

/-- Witness for C9 (amended): all three non-critical fields are the
sentinel and the record is accepted. -/
theorem c9_noncritical_never_gate_amended_witness :
    (("12345678" : String) ≠ "--") ∧
      determineEligibility "12345678"
          { playerName := "Jane Doe"
            playerId := "12345678"
            playerState := "--"
            regularRating := "1500"
            quickRating := "--"
            blitzRating := "--"
            expirationDt := "2099-01-01" }
          { expired := false, expiresIn := ExpiresIn.millis 1000 } =
        { eligible := true, reason := "player_valid" } :=
  ⟨by decide,
    c9_noncritical_never_gate_amended "12345678" _ _ (by decide) rfl rfl
      (by decide) (by decide) (by decide)⟩

/-- C10: for every input, the eligibility evaluator returns eligible true
exactly when the reason is player_valid, and the reason is always one of
the five reason codes the evaluator can produce (so every reason other
than player_valid is paired with eligible false). -/
theorem c10_eligible_iff_player_valid (requestedId : String)
    (playerInfo : USChessInfo) (playerStatus : PlayerStatus) :
    ((determineEligibility requestedId playerInfo playerStatus).eligible = true ↔
      (determineEligibility requestedId playerInfo playerStatus).reason = "player_valid") ∧
      (determineEligibility requestedId playerInfo playerStatus).reason ∈
        ["player_not_found", "player_expired", "player_invalid",
          "player_insufficient_info", "player_valid"] := by
  unfold determineEligibility
  repeat' split
  all_goals simp
